import Mathlib

/-!
Verification development for the population-health analytics pipeline
(`life_exp_gdp_analysis.py`).

The pipeline rows are dataframe records; columns added during the run
(`gdp_log`, `year_index`, `risk_tier`, `pred`, `residual`, `cluster`,
`cluster_label`) are modelled as `Option` fields that start out `none`.
Outcome values (`life_expectancy`) and `gdp` are modelled as rationals so
that the quartile computation of `pd.qcut` is fully executable; the log
transform and the regression formulas live in `ℝ` via `Real.log`.

The numpy log does not raise on non-positive input (it returns `-inf`/`NaN`
with a warning); we model it with the total function `Real.log` and no
theorem below depends on the value of the log at a non-positive argument.
-/

namespace PopHealth

/-- One dataframe row after loading/renaming: raw columns plus the columns
the pipeline may add later (modelled as `Option`, initially `none`). -/
structure ObsRow where
  country : String
  year : ℤ
  life_expectancy : ℚ
  gdp : ℚ
  gdp_log : Option ℝ := none
  year_index : Option ℤ := none
  risk_tier : Option ℕ := none
  pred : Option ℝ := none
  residual : Option ℝ := none
  cluster : Option ℕ := none
  cluster_label : Option String := none

/-- The fitted linear model: `predict = intercept + coef_gdp_log * gdp_log
+ coef_year_index * year_index` (sklearn `LinearRegression` on the two
features `gdp_log`, `year_index`). -/
structure FittedModel where
  intercept : ℝ
  coef_gdp_log : ℝ
  coef_year_index : ℝ

/-- Prediction of the fitted model on one feature row. -/
noncomputable def predict (m : FittedModel) (gdpLog yearIndex : ℝ) : ℝ :=
  m.intercept + m.coef_gdp_log * gdpLog + m.coef_year_index * yearIndex

/-- Errors of the pipeline as the specification describes them. -/
inductive SpecError where
  | domainError : SpecError
  | insufficientDataError : SpecError
deriving DecidableEq

/-! ### Feature engineering (`engineer_features`)

`engineer_features` does `df = df.copy()`, then
`df["gdp_log"] = np.log(df["gdp"])`,
`df["year_index"] = df["Year"] - df["Year"].min()`, and
`df["risk_tier"] = pd.qcut(df["life_expectancy"], 4, labels=[1,2,3,4])`.

`pd.qcut(x, 4)` computes the bin edges as the linearly interpolated
quantiles of `x` at probabilities `0, 1/4, 1/2, 3/4, 1` and raises
`ValueError` ("Bin edges must be unique") when the edges contain
duplicates.  A value `v` falls in the first bin when `v ≤ q1` (the lowest
bin includes its left edge) and otherwise in the first bin whose right
edge is `≥ v`. -/

/-- The outcome values in ascending order (`np.percentile` sorts its
input). -/
def sortedVals (xs : List ℚ) : List ℚ :=
  List.insertionSort (· ≤ ·) xs

/-- Linearly interpolated quantile of the sorted list `s` at probability
`k/4`: with `h = (k/4) * (n-1)` the quantile is
`s[⌊h⌋] + (h - ⌊h⌋) * (s[⌊h⌋+1] - s[⌊h⌋])`.  Here `pos = k*(n-1)` so
`⌊h⌋ = pos / 4` and `h - ⌊h⌋ = (pos % 4)/4`, all in exact arithmetic. -/
def quantileAt (s : List ℚ) (k : ℕ) : ℚ :=
  let pos := k * (s.length - 1)
  let i := pos / 4
  let f : ℚ := ((pos % 4 : ℕ) : ℚ) / 4
  s.getD i 0 + f * (s.getD (i + 1) 0 - s.getD i 0)

/-- The five quartile bin edges computed by `pd.qcut(xs, 4)`: the
quantiles at probabilities `0, 1/4, 1/2, 3/4, 1`. -/
def qcutEdges (xs : List ℚ) : List ℚ :=
  [quantileAt (sortedVals xs) 0, quantileAt (sortedVals xs) 1,
   quantileAt (sortedVals xs) 2, quantileAt (sortedVals xs) 3,
   quantileAt (sortedVals xs) 4]

/-- Bin assignment of `pd.qcut` with labels `[1,2,3,4]`: first bin
`[q0, q1]` (the lowest bin includes its left edge), then right-closed
bins `(q1, q2]`, `(q2, q3]`, `(q3, q4]`; every value lies between the
minimum `q0` and the maximum `q4`. -/
def assignTier (q1 q2 q3 v : ℚ) : ℕ :=
  if v ≤ q1 then 1
  else if v ≤ q2 then 2
  else if v ≤ q3 then 3
  else 4

/-- Embeds the minimum of the Year column. -/
def minYear (rows : List ObsRow) : ℤ :=
  ((rows.map (·.year)).min?).getD 0

/-- The column assignments performed on one (copied) row:
`gdp_log = np.log(gdp)`, `year_index = Year - Year.min()`,
`risk_tier = qcut bin of life_expectancy`. -/
noncomputable def deriveRow (minY : ℤ) (q1 q2 q3 : ℚ) (r : ObsRow) : ObsRow :=
  { r with
    gdp_log := some (Real.log (r.gdp : ℝ))
    year_index := some (r.year - minY)
    risk_tier := some (assignTier q1 q2 q3 r.life_expectancy) }

/-- The rows produced by `engineer_features` on the success path. -/
noncomputable def engineeredRows (rows : List ObsRow) : List ObsRow :=
  rows.map (deriveRow (minYear rows)
    ((qcutEdges (rows.map (·.life_expectancy))).getD 1 0)
    ((qcutEdges (rows.map (·.life_expectancy))).getD 2 0)
    ((qcutEdges (rows.map (·.life_expectancy))).getD 3 0))

/-- Embeds `engineer_features`: the function succeeds exactly when the
quartile bin edges of the outcome column are pairwise distinct; otherwise
`pd.qcut` raises `ValueError`.  There is no validation of `gdp` (numpy
computes the log silently for non-positive values). -/
noncomputable def engineer_features (rows : List ObsRow) :
    Except String (List ObsRow) :=
  if (qcutEdges (rows.map (·.life_expectancy))).Nodup then
    .ok (engineeredRows rows)
  else
    .error "Bin edges must be unique"

/-- State-passing view of `engineer_features`: the first component is the
state of the dataframe of the caller after the call.  The source starts with
`df = df.copy()`, so the rows of the caller are returned unchanged. -/
noncomputable def engineer_features_st (rows : List ObsRow) :
    List ObsRow × Except String (List ObsRow) :=
  (rows, engineer_features rows)

/-! ### Regression stage (`fit_outcome_regression`)

`fit_outcome_regression` calls
`train_test_split(X, y, test_size=0.2, random_state=42)` and fits
`LinearRegression()` on the training part.  The external library calls
are modelled by their documented contracts:

* `rng seed n` is the permutation of row indices a freshly seeded
  pseudo-random generator produces (sklearn creates a fresh generator
  from an integer `random_state`);
* `draw state n` is the permutation obtained from the ambient global
  generator state, together with the successor state (what sklearn uses
  when `random_state` is `None`);
* `ols` is the least-squares fit of the training rows.

The split takes `ceil(n/5)` test rows from the front of the permutation
and trains on the rest. -/

/-- External `train_test_split` RNG contract: with an integer
`random_state` the permutation depends only on the seed and the input
size; with `none` it consumes the ambient generator state. -/
def train_test_split_perm (rng : ℕ → ℕ → List ℕ)
    (draw : ℕ → ℕ → List ℕ × ℕ) (state : ℕ)
    (random_state : Option ℕ) (n : ℕ) : List ℕ × ℕ :=
  match random_state with
  | some s => (rng s n, state)
  | none => draw state n

/-- Embeds the split-and-fit part of `fit_outcome_regression` (the call
with the literal `random_state=42`): returns the (train indices, test
indices) membership, the fitted model, and the ambient generator state
after the call. -/
def fit_outcome_regression_run (rng : ℕ → ℕ → List ℕ)
    (draw : ℕ → ℕ → List ℕ × ℕ) (ols : List ObsRow → FittedModel)
    (state : ℕ) (rows : List ObsRow) :
    (List ℕ × List ℕ) × FittedModel × ℕ :=
  let n := rows.length
  let nTest := (n + 4) / 5
  let pg := train_test_split_perm rng draw state (some 42) n
  let testIdx := pg.1.take nTest
  let trainIdx := pg.1.drop nTest
  let trainRows := trainIdx.filterMap (fun i => rows.get? i)
  ((trainIdx, testIdx), ols trainRows, pg.2)

/-- The column assignments of the residual block on one row:
`pred = model.predict(X)` on the feature columns of that row and
`residual = life_expectancy - pred`.  Only reached when the feature
columns exist, so the `getD` defaults are never taken. -/
noncomputable def residualRow (m : FittedModel) (r : ObsRow) : ObsRow :=
  let p := predict m (r.gdp_log.getD 0) ((r.year_index.getD 0 : ℤ) : ℝ)
  { r with pred := some p, residual := some ((r.life_expectancy : ℝ) - p) }

/-- Embeds the residual block of `fit_outcome_regression`:
`df["pred"] = model.predict(X)` and
`df["residual"] = df["life_expectancy"] - df["pred"]`, where the
features were taken as `X = df[["gdp_log", "year_index"]]` at the top
of `fit_outcome_regression`.  If the dataframe lacks these columns the
source raises `KeyError` there, before any assignment runs, and the
dataframe of the caller is untouched; this is the error branch.  On the
success branch there is no `df.copy()`: the columns are written onto
the dataframe of the caller, so the `ok` payload is the new state of
the rows the caller holds. -/
noncomputable def attach_residuals (m : FittedModel) (rows : List ObsRow) :
    Except String (List ObsRow) :=
  if ∀ r ∈ rows, r.gdp_log.isSome ∧ r.year_index.isSome then
    .ok (rows.map (residualRow m))
  else
    .error "KeyError"

/-! ### Segmentation (`cluster_populations`)

`cluster_populations` does `df = df.copy()`, assigns
`df["cluster"] = kmeans.fit_predict(scaled)`, computes
`profile = df.groupby("cluster")["life_expectancy"].mean().sort_values()`
and maps the four ordinal labels onto the clusters in `profile` order.
The scaling and k-means steps are floating-point iterative algorithms;
they are modelled by an abstract assignment `assign : List ObsRow →
List ℕ` (one cluster id per row), over which the labeling theorems
quantify.  `sort_values` uses an unstable quicksort whose tie order is
implementation-defined; it is modelled by a stable insertion sort and no
theorem below depends on the relative order of tied means. -/

/-- Arithmetic mean of a list of rationals (mean of a groupby group). -/
def meanQ (xs : List ℚ) : ℚ := xs.sum / xs.length

/-- The distinct cluster ids in ascending order (`groupby` sorts its
keys). -/
def clusterIds (cl : List ℕ) : List ℕ :=
  List.insertionSort (· ≤ ·) cl.dedup

/-- Embeds the groupby-mean-sort step:
pairs `(cluster id, mean outcome)` sorted ascending by mean. -/
def clusterProfile (rows : List ObsRow) (cl : List ℕ) : List (ℕ × ℚ) :=
  let pairs := rows.zip cl
  List.insertionSort (fun a b : ℕ × ℚ => a.2 ≤ b.2)
    ((clusterIds cl).map (fun c =>
      (c, meanQ ((pairs.filter (fun p => p.2 == c)).map
        (fun p => p.1.life_expectancy)))))

/-- The four ordinal labels, in the order they are zipped with the
profile. -/
def riskLabels : List String :=
  ["High Risk", "Elevated Risk", "Moderate Risk", "Low Risk"]

/-- The `label_map` dictionary: the cluster at position `i` of the
sorted profile receives label `i`. -/
def labelMap (profile : List (ℕ × ℚ)) (c : ℕ) : Option String :=
  ((profile.map Prod.fst).zip riskLabels).lookup c

/-- Embeds `cluster_populations` in state-passing form: the first
component is the dataframe of the caller after the call (unchanged, because
of `df = df.copy()`), the second is the returned dataframe with the
`cluster` and `cluster_label` columns set. -/
def cluster_populations_st (assign : List ObsRow → List ℕ)
    (rows : List ObsRow) : List ObsRow × List ObsRow :=
  let cl := assign rows
  let profile := clusterProfile rows cl
  let rows₂ := (rows.zip cl).map (fun p =>
    { p.1 with cluster := some p.2, cluster_label := labelMap profile p.2 })
  (rows, rows₂)

/-! ### What-if simulation (`simulate_life_expectancy_change`)

The source computes `gdp_new = gdp_current * (1 + delta_gdp_pct / 100)`
and predicts at `log(gdp_current)` and `log(gdp_new)` with the same
`year_index`; it performs no validation whatsoever (numpy computes
`log(0) = -inf` and `log(negative) = NaN` without raising). -/

/-- Embeds `simulate_life_expectancy_change`: a total function returning
`(y_curr, y_new, y_new - y_curr)`. -/
noncomputable def simulate_life_expectancy_change (gdp_current : ℝ)
    (year_index : ℤ) (delta_gdp_pct : ℝ) (m : FittedModel) : ℝ × ℝ × ℝ :=
  let gdp_new := gdp_current * (1 + delta_gdp_pct / 100)
  let y_curr := predict m (Real.log gdp_current) (year_index : ℝ)
  let y_new := predict m (Real.log gdp_new) (year_index : ℝ)
  (y_curr, y_new, y_new - y_curr)

/-- Modelled from the specification (the validating simulator the
specification describes, absent from the source): fails with
`DomainError` when the perturbed economic level is non-positive,
otherwise returns the same triple as the source.  Stated separately so
the error behaviour of the source can be compared with it. -/
noncomputable def simulate_spec (gdp_current : ℝ) (year_index : ℤ)
    (delta_gdp_pct : ℝ) (m : FittedModel) :
    Except SpecError (ℝ × ℝ × ℝ) :=
  if gdp_current * (1 + delta_gdp_pct / 100) ≤ 0 then
    .error .domainError
  else
    .ok (simulate_life_expectancy_change gdp_current year_index
      delta_gdp_pct m)

/-! ### Concrete datasets used by counterexamples and witnesses -/

/-- Four observations with outcome values `1, 2, 3, 4`; the first row has
economic level `gdp = 0`. -/
def rowsZeroGdp : List ObsRow :=
  [{ country := "A", year := 2000, life_expectancy := 1, gdp := 0 },
   { country := "B", year := 2000, life_expectancy := 2, gdp := 1 },
   { country := "C", year := 2001, life_expectancy := 3, gdp := 1 },
   { country := "D", year := 2001, life_expectancy := 4, gdp := 1 }]

/-- Six observations with outcome values `0, 5, 5, 7, 8, 9` (five
distinct values): the quartile edges are `[0, 5, 6, 31/4, 9]`, so
`pd.qcut` succeeds but assigns the tiers `1, 1, 1, 3, 4, 4` — tier `2`
is never attained. -/
def rowsTierGap : List ObsRow :=
  [{ country := "A", year := 2000, life_expectancy := 0, gdp := 1 },
   { country := "B", year := 2000, life_expectancy := 5, gdp := 1 },
   { country := "C", year := 2000, life_expectancy := 5, gdp := 1 },
   { country := "D", year := 2000, life_expectancy := 7, gdp := 1 },
   { country := "E", year := 2000, life_expectancy := 8, gdp := 1 },
   { country := "F", year := 2000, life_expectancy := 9, gdp := 1 }]

/-- Four observations with distinct outcome values `80, 60, 70, 50`. -/
def rowsFour : List ObsRow :=
  [{ country := "A", year := 2000, life_expectancy := 80, gdp := 4 },
   { country := "B", year := 2001, life_expectancy := 60, gdp := 3 },
   { country := "C", year := 2002, life_expectancy := 70, gdp := 2 },
   { country := "D", year := 2003, life_expectancy := 50, gdp := 1 }]

/-- A cluster assignment putting each of four rows in its own cluster. -/
def assignFour : List ObsRow → List ℕ := fun _ => [0, 1, 2, 3]

/-! ### Order instances for sorting the cluster profile by mean -/

instance : IsTotal (ℕ × ℚ) (fun a b : ℕ × ℚ => a.2 ≤ b.2) :=
  ⟨fun a b => le_total a.2 b.2⟩

instance : IsTrans (ℕ × ℚ) (fun a b : ℕ × ℚ => a.2 ≤ b.2) :=
  ⟨fun _ _ _ hab hbc => le_trans hab hbc⟩

/-! ## Helper lemmas -/

@[simp] theorem deriveRow_country (mY : ℤ) (q1 q2 q3 : ℚ) (r : ObsRow) :
    (deriveRow mY q1 q2 q3 r).country = r.country := rfl

@[simp] theorem deriveRow_year (mY : ℤ) (q1 q2 q3 : ℚ) (r : ObsRow) :
    (deriveRow mY q1 q2 q3 r).year = r.year := rfl

@[simp] theorem deriveRow_life (mY : ℤ) (q1 q2 q3 : ℚ) (r : ObsRow) :
    (deriveRow mY q1 q2 q3 r).life_expectancy = r.life_expectancy := rfl

@[simp] theorem deriveRow_gdp (mY : ℤ) (q1 q2 q3 : ℚ) (r : ObsRow) :
    (deriveRow mY q1 q2 q3 r).gdp = r.gdp := rfl

@[simp] theorem deriveRow_gdp_log (mY : ℤ) (q1 q2 q3 : ℚ) (r : ObsRow) :
    (deriveRow mY q1 q2 q3 r).gdp_log = some (Real.log (r.gdp : ℝ)) := rfl

@[simp] theorem deriveRow_risk_tier (mY : ℤ) (q1 q2 q3 : ℚ) (r : ObsRow) :
    (deriveRow mY q1 q2 q3 r).risk_tier =
      some (assignTier q1 q2 q3 r.life_expectancy) := rfl

/-- Success lemma: `engineer_features` succeeds on distinct bin edges and
returns `engineeredRows`. -/
theorem engineer_eq_ok (rows : List ObsRow)
    (h : (qcutEdges (rows.map (·.life_expectancy))).Nodup) :
    engineer_features rows = .ok (engineeredRows rows) := by
  rw [engineer_features, if_pos h]

/-- Inversion for a successful run of `engineer_features`. -/
theorem engineer_ok_inv (rows ds : List ObsRow)
    (h : engineer_features rows = .ok ds) :
    (qcutEdges (rows.map (·.life_expectancy))).Nodup ∧
      ds = engineeredRows rows := by
  by_cases hn : (qcutEdges (rows.map (·.life_expectancy))).Nodup
  · rw [engineer_features, if_pos hn] at h
    exact ⟨hn, (Except.ok.injEq _ _ ▸ h :).symm⟩
  · rw [engineer_features, if_neg hn] at h
    exact absurd h (by simp)

theorem map_life_engineeredRows (rows : List ObsRow) :
    (engineeredRows rows).map (·.life_expectancy) =
      rows.map (·.life_expectancy) := by
  simp [engineeredRows, List.map_map, Function.comp_def]

theorem map_year_engineeredRows (rows : List ObsRow) :
    (engineeredRows rows).map (·.year) = rows.map (·.year) := by
  simp [engineeredRows, List.map_map, Function.comp_def]

theorem minYear_engineeredRows (rows : List ObsRow) :
    minYear (engineeredRows rows) = minYear rows := by
  rw [minYear, minYear, map_year_engineeredRows]

/-- Applying the column assignments twice with the same parameters is the
same as applying them once (the raw columns they read are untouched). -/
theorem deriveRow_deriveRow (mY : ℤ) (q1 q2 q3 : ℚ) (r : ObsRow) :
    deriveRow mY q1 q2 q3 (deriveRow mY q1 q2 q3 r) =
      deriveRow mY q1 q2 q3 r := rfl

theorem engineeredRows_idem (rows : List ObsRow) :
    engineeredRows (engineeredRows rows) = engineeredRows rows := by
  conv_lhs =>
    rw [engineeredRows, map_life_engineeredRows, minYear_engineeredRows]
  rw [show engineeredRows rows = rows.map (deriveRow (minYear rows)
      ((qcutEdges (rows.map (·.life_expectancy))).getD 1 0)
      ((qcutEdges (rows.map (·.life_expectancy))).getD 2 0)
      ((qcutEdges (rows.map (·.life_expectancy))).getD 3 0)) from rfl,
    List.map_map]
  rfl

/-! ## Claim theorems -/

/-- C10: the Feature Engineer and the Segmenter both start with
`df = df.copy()`, so after either call the state of the
dataframe (the first component of the state-passing embedding) still has
exactly the columns and values it had before the call. -/
theorem c10_copy_frame (rows : List ObsRow) (assign : List ObsRow → List ℕ) :
    (engineer_features_st rows).1 = rows ∧
      (cluster_populations_st assign rows).1 = rows :=
  ⟨rfl, rfl⟩

/-- C8: the Outcome Regressor calls `train_test_split` with the literal
`random_state=42`, so the train/test membership and the fitted
coefficients do not depend on the ambient random-generator state: two
runs on the same dataset (states `s1` and `s2`) produce identical split
membership and identical coefficients, for every generator contract
`rng`/`draw` and every least-squares fitter `ols`. -/
theorem c8_fit_deterministic (rng : ℕ → ℕ → List ℕ)
    (draw : ℕ → ℕ → List ℕ × ℕ) (ols : List ObsRow → FittedModel)
    (rows : List ObsRow) (s1 s2 : ℕ) :
    (fit_outcome_regression_run rng draw ols s1 rows).1 =
        (fit_outcome_regression_run rng draw ols s2 rows).1 ∧
      (fit_outcome_regression_run rng draw ols s1 rows).2.1 =
        (fit_outcome_regression_run rng draw ols s2 rows).2.1 :=
  ⟨rfl, rfl⟩

@[simp] theorem deriveRow_pred (mY : ℤ) (q1 q2 q3 : ℚ) (r : ObsRow) :
    (deriveRow mY q1 q2 q3 r).pred = r.pred := rfl

@[simp] theorem residualRow_pred (m : FittedModel) (r : ObsRow) :
    (residualRow m r).pred =
      some (predict m (r.gdp_log.getD 0) ((r.year_index.getD 0 : ℤ) : ℝ)) :=
  rfl

/-- Every row produced by the Feature Engineer carries the `gdp_log`
and `year_index` columns, so the residual block never takes its
`KeyError` branch on engineered rows. -/
theorem mem_engineeredRows_isSome (rows : List ObsRow) :
    ∀ r ∈ engineeredRows rows, r.gdp_log.isSome ∧ r.year_index.isSome := by
  intro r hr
  simp only [engineeredRows] at hr
  obtain ⟨x, _, rfl⟩ := List.mem_map.mp hr
  exact ⟨rfl, rfl⟩

/-- On rows that carry the feature columns the residual block succeeds,
and its output differs from the input whenever some row has no `pred`
column yet. -/
theorem attach_residuals_ok_ne (m : FittedModel) (rows : List ObsRow)
    (hcols : ∀ r ∈ rows, r.gdp_log.isSome ∧ r.year_index.isSome)
    (hpred : ∃ r ∈ rows, r.pred = none) :
    attach_residuals m rows = .ok (rows.map (residualRow m)) ∧
      rows.map (residualRow m) ≠ rows := by
  refine ⟨by rw [attach_residuals, if_pos hcols], ?_⟩
  intro heq
  obtain ⟨r, hr, hnone⟩ := hpred
  rw [← heq] at hr
  obtain ⟨r1, _, hfr⟩ := List.mem_map.mp hr
  rw [← hfr] at hnone
  simp at hnone

/-- The first engineered row of `rowsFour` still has no `pred`
column. -/
theorem exists_pred_none_engineered_rowsFour :
    ∃ r ∈ engineeredRows rowsFour, r.pred = none := by
  have h0 : ∃ r ∈ rowsFour, r.pred = none := by
    simp only [rowsFour]
    exact ⟨_, List.mem_cons_self _ _, rfl⟩
  obtain ⟨r, hr, hp⟩ := h0
  exact ⟨_, List.mem_map_of_mem _ hr, by simp [hp]⟩

/-- C6 (amended): on a dataframe that carries the feature columns — as
every output of the Feature Engineer does — the residual block of
`fit_outcome_regression` succeeds and writes the `pred` and `residual`
columns onto the rows of the caller in place (there is no `df.copy()`):
whenever some row has no `pred` column yet, the new state of the rows
the caller holds differs from the state before the call, although the
raw columns are preserved.  The Gap Ranker is therefore not a pure
function of its inputs in the frame sense.  (On a dataframe without the
feature columns the source instead raises `KeyError` before any
assignment, leaving the rows of the caller untouched.) -/
theorem c6_residuals_mutate (m : FittedModel) (rows : List ObsRow)
    (hcols : ∀ r ∈ rows, r.gdp_log.isSome ∧ r.year_index.isSome)
    (hpred : ∃ r ∈ rows, r.pred = none) :
    ∃ ds, attach_residuals m rows = .ok ds ∧ ds ≠ rows ∧
      ds.map (fun r => (r.country, r.year, r.life_expectancy, r.gdp)) =
        rows.map (fun r => (r.country, r.year, r.life_expectancy, r.gdp)) := by
  obtain ⟨hok, hne⟩ := attach_residuals_ok_ne m rows hcols hpred
  refine ⟨rows.map (residualRow m), hok, hne, ?_⟩
  simp [residualRow, List.map_map, Function.comp_def]

/-- C6, counterexample: on the Derived Observations the Feature Engineer
produces from `rowsFour`, the residual block succeeds and the new state
of the rows the caller holds differs from the state before the call —
the code mutates a structure another stage still holds, refuting the
claimed purity. -/
theorem c6_cex :
    engineer_features rowsFour = .ok (engineeredRows rowsFour) ∧
      ∃ ds, attach_residuals ⟨1, 0, 0⟩ (engineeredRows rowsFour) = .ok ds ∧
        ds ≠ engineeredRows rowsFour := by
  refine ⟨engineer_eq_ok rowsFour (by
      norm_num [rowsFour, qcutEdges, quantileAt, sortedVals,
        List.insertionSort, List.orderedInsert]), ?_⟩
  obtain ⟨hok, hne⟩ := attach_residuals_ok_ne ⟨1, 0, 0⟩
    (engineeredRows rowsFour) (mem_engineeredRows_isSome rowsFour)
    exists_pred_none_engineered_rowsFour
  exact ⟨_, hok, hne⟩

/-- C6, witness for `c6_residuals_mutate` at the engineered rows of
`rowsFour`. -/
theorem c6_witness :
    (∀ r ∈ engineeredRows rowsFour,
        r.gdp_log.isSome ∧ r.year_index.isSome) ∧
      (∃ r ∈ engineeredRows rowsFour, r.pred = none) ∧
      ∃ ds, attach_residuals ⟨1, 0, 0⟩ (engineeredRows rowsFour) = .ok ds ∧
        ds ≠ engineeredRows rowsFour ∧
        ds.map (fun r => (r.country, r.year, r.life_expectancy, r.gdp)) =
          (engineeredRows rowsFour).map
            (fun r => (r.country, r.year, r.life_expectancy, r.gdp)) :=
  ⟨mem_engineeredRows_isSome rowsFour, exists_pred_none_engineered_rowsFour,
    c6_residuals_mutate ⟨1, 0, 0⟩ (engineeredRows rowsFour)
      (mem_engineeredRows_isSome rowsFour)
      exists_pred_none_engineered_rowsFour⟩

/-- C9: the Feature Engineer is idempotent: a successful run recomputes
`gdp_log`, `year_index` and `risk_tier` from the raw columns only, and
leaves the raw columns untouched, so running it again on its own output
reproduces that output exactly. -/
theorem c9_engineer_idempotent (rows ds : List ObsRow)
    (h : engineer_features rows = .ok ds) :
    engineer_features ds = .ok ds := by
  obtain ⟨hn, hds⟩ := engineer_ok_inv rows ds h
  subst hds
  have hn2 : (qcutEdges ((engineeredRows rows).map
      (·.life_expectancy))).Nodup := by
    rw [map_life_engineeredRows]; exact hn
  rw [engineer_eq_ok _ hn2, engineeredRows_idem]

/-- C9, witness for `c9_engineer_idempotent` at a concrete dataset. -/
theorem c9_witness :
    ∃ ds, engineer_features rowsFour = .ok ds ∧
      engineer_features ds = .ok ds := by
  have hn : (qcutEdges (rowsFour.map (·.life_expectancy))).Nodup := by
    norm_num [rowsFour, qcutEdges, quantileAt, sortedVals,
      List.insertionSort, List.orderedInsert]
  exact ⟨engineeredRows rowsFour, engineer_eq_ok rowsFour hn,
    c9_engineer_idempotent rowsFour _ (engineer_eq_ok rowsFour hn)⟩

/-- The qcut bin label is always one of `1, 2, 3, 4`. -/
theorem assignTier_mem (q1 q2 q3 v : ℚ) :
    assignTier q1 q2 q3 v = 1 ∨ assignTier q1 q2 q3 v = 2 ∨
      assignTier q1 q2 q3 v = 3 ∨ assignTier q1 q2 q3 v = 4 := by
  unfold assignTier
  split_ifs <;> simp

/-- A strictly larger qcut bin label means a strictly larger value: the
first bin whose right edge is reached decides the label, so a value in a
later bin exceeded every earlier right edge. -/
theorem assignTier_lt_imp (q1 q2 q3 u v : ℚ)
    (h : assignTier q1 q2 q3 u < assignTier q1 q2 q3 v) : u < v := by
  unfold assignTier at h
  split_ifs at h <;> first | omega | linarith

/-- C3 (amended): the Feature Engineer performs no sign validation of
the economic level: whenever the quartile edges of the outcome column
are distinct it succeeds — regardless of non-positive `gdp` values — and
sets `gdp_log = ln(gdp)` on every row (numpy computes the log of a
non-positive level silently instead of raising `DomainError`). -/
theorem c3_log_no_validation (rows : List ObsRow)
    (h : (qcutEdges (rows.map (·.life_expectancy))).Nodup) :
    ∃ ds, engineer_features rows = .ok ds ∧
      ds.map (·.gdp_log) =
        rows.map (fun r => some (Real.log (r.gdp : ℝ))) := by
  refine ⟨engineeredRows rows, engineer_eq_ok rows h, ?_⟩
  simp [engineeredRows, List.map_map, Function.comp_def]

/-- C3, counterexample: a dataset containing a row with economic level
`gdp = 0` on which the Feature Engineer succeeds (returns rows) instead
of raising `DomainError`. -/
theorem c3_cex :
    (∃ r ∈ rowsZeroGdp, r.gdp ≤ 0) ∧
      ∃ ds, engineer_features rowsZeroGdp = .ok ds := by
  constructor
  · simp only [rowsZeroGdp]
    exact ⟨_, List.mem_cons_self _ _, by norm_num⟩
  · exact ⟨_, engineer_eq_ok rowsZeroGdp (by
      norm_num [rowsZeroGdp, qcutEdges, quantileAt, sortedVals,
        List.insertionSort, List.orderedInsert])⟩

/-- C3, witness for `c3_log_no_validation` at a concrete dataset (the
same dataset with a zero economic level: the log column is still
produced). -/
theorem c3_witness :
    (qcutEdges (rowsZeroGdp.map (·.life_expectancy))).Nodup ∧
      ∃ ds, engineer_features rowsZeroGdp = .ok ds ∧
        ds.map (·.gdp_log) =
          rowsZeroGdp.map (fun r => some (Real.log (r.gdp : ℝ))) := by
  have hn : (qcutEdges (rowsZeroGdp.map (·.life_expectancy))).Nodup := by
    norm_num [rowsZeroGdp, qcutEdges, quantileAt, sortedVals,
      List.insertionSort, List.orderedInsert]
  exact ⟨hn, c3_log_no_validation rowsZeroGdp hn⟩

/-- C4 (amended): whenever the Feature Engineer succeeds, every
`risk_tier` value lies in `{1, 2, 3, 4}` and the tiers partition the
outcome axis into non-overlapping intervals that are non-decreasing
(indeed increasing) with the tier number: a row in a strictly higher
tier has a strictly higher outcome value.  (Not every tier need be
attained, and four distinct outcome values do not guarantee success —
see the counterexample.) -/
theorem c4_tier_partition (rows ds : List ObsRow)
    (h : engineer_features rows = .ok ds) :
    (∀ d ∈ ds, d.risk_tier = some 1 ∨ d.risk_tier = some 2 ∨
        d.risk_tier = some 3 ∨ d.risk_tier = some 4) ∧
      ∀ d ∈ ds, ∀ e ∈ ds, ∀ td te : ℕ, d.risk_tier = some td →
        e.risk_tier = some te → td < te →
        d.life_expectancy < e.life_expectancy := by
  obtain ⟨hn, hds⟩ := engineer_ok_inv rows ds h
  subst hds
  simp only [engineeredRows] at *
  constructor
  · intro d hd
    obtain ⟨r, _, hfr⟩ := List.mem_map.mp hd
    subst hfr
    simp only [deriveRow_risk_tier, Option.some.injEq]
    exact assignTier_mem _ _ _ _
  · intro d hd e he td te htd hte hlt
    obtain ⟨r, _, hfr⟩ := List.mem_map.mp hd
    subst hfr
    obtain ⟨r2, _, hfr2⟩ := List.mem_map.mp he
    subst hfr2
    simp only [deriveRow_risk_tier, Option.some.injEq] at htd hte
    simp only [deriveRow_life]
    exact assignTier_lt_imp _ _ _ _ _ (by rw [htd, hte]; exact hlt)

/-- C4, counterexample: the dataset `rowsTierGap` has five distinct
outcome values (`0, 5, 7, 8, 9`), the Feature Engineer succeeds on it,
but the produced tiers are `1, 1, 1, 3, 4, 4`: the value `2` is never
attained, so `risk_tier` does not take exactly the values
`{1, 2, 3, 4}`. -/
theorem c4_cex :
    ([(0 : ℚ), 5, 7, 8, 9].Nodup ∧
        ∀ x ∈ [(0 : ℚ), 5, 7, 8, 9],
          x ∈ rowsTierGap.map (·.life_expectancy)) ∧
      engineer_features rowsTierGap = .ok (engineeredRows rowsTierGap) ∧
      (engineeredRows rowsTierGap).map (·.risk_tier) =
        [some 1, some 1, some 1, some 3, some 4, some 4] := by
  refine ⟨⟨by norm_num, by norm_num [rowsTierGap]⟩, ?_, ?_⟩
  · exact engineer_eq_ok rowsTierGap (by
      norm_num [rowsTierGap, qcutEdges, quantileAt, sortedVals,
        List.insertionSort, List.orderedInsert])
  · norm_num [engineeredRows, rowsTierGap, qcutEdges, quantileAt,
      sortedVals, List.insertionSort, List.orderedInsert, deriveRow,
      assignTier, minYear]

/-- C4, witness for `c4_tier_partition` at a concrete dataset. -/
theorem c4_witness :
    (engineer_features rowsFour = .ok (engineeredRows rowsFour)) ∧
      ∀ d ∈ engineeredRows rowsFour,
        d.risk_tier = some 1 ∨ d.risk_tier = some 2 ∨
          d.risk_tier = some 3 ∨ d.risk_tier = some 4 := by
  have hok : engineer_features rowsFour = .ok (engineeredRows rowsFour) :=
    engineer_eq_ok rowsFour (by
      norm_num [rowsFour, qcutEdges, quantileAt, sortedVals,
        List.insertionSort, List.orderedInsert])
  exact ⟨hok, (c4_tier_partition rowsFour _ hok).1⟩

/-- C7: for every clustering produced by the Segmenter (any cluster
assignment `assign`), the labeling step orders the clusters by ascending
mean outcome and zips the four ordinal labels onto them: the profile is
sorted (mean outcome is non-decreasing along the label sequence), the
head of the profile attains the minimal mean, its cluster is mapped to
"High Risk", and every output row in that cluster carries the label
"High Risk". -/
theorem c7_label_monotone (assign : List ObsRow → List ℕ)
    (rows : List ObsRow) (c0 : ℕ) (m0 : ℚ) (rest : List (ℕ × ℚ))
    (hp : clusterProfile rows (assign rows) = (c0, m0) :: rest) :
    (clusterProfile rows (assign rows)).Pairwise
        (fun a b : ℕ × ℚ => a.2 ≤ b.2) ∧
      (∀ q ∈ rest, m0 ≤ q.2) ∧
      labelMap ((c0, m0) :: rest) c0 = some "High Risk" ∧
      ∀ r ∈ (cluster_populations_st assign rows).2,
        r.cluster = some c0 → r.cluster_label = some "High Risk" := by
  have hsorted : (clusterProfile rows (assign rows)).Pairwise
      (fun a b : ℕ × ℚ => a.2 ≤ b.2) := by
    rw [clusterProfile]
    exact List.sorted_insertionSort _ _
  have hhead : labelMap ((c0, m0) :: rest) c0 = some "High Risk" := by
    simp [labelMap, riskLabels, List.lookup]
  refine ⟨hsorted, ?_, hhead, ?_⟩
  · rw [hp] at hsorted
    exact (List.pairwise_cons.mp hsorted).1
  · intro r hr hc
    simp only [cluster_populations_st] at hr
    obtain ⟨p, _, hfr⟩ := List.mem_map.mp hr
    subst hfr
    simp only at hc ⊢
    have hpc : p.2 = c0 := by
      simpa using hc
    rw [hpc, hp]
    exact hhead

/-- C7, witness for `c7_label_monotone` at a concrete clustering of four
rows into four singleton clusters with means `80, 60, 70, 50`. -/
theorem c7_witness :
    clusterProfile rowsFour (assignFour rowsFour) =
        (3, (50 : ℚ)) :: [(1, 60), (2, 70), (0, 80)] ∧
      labelMap ((3, (50 : ℚ)) :: [(1, 60), (2, 70), (0, 80)]) 3 =
        some "High Risk" := by
  have hp : clusterProfile rowsFour (assignFour rowsFour) =
      (3, (50 : ℚ)) :: [(1, 60), (2, 70), (0, 80)] := by
    norm_num [clusterProfile, clusterIds, meanQ, assignFour, rowsFour,
      List.insertionSort, List.orderedInsert, List.dedup]
  exact ⟨hp,
    (c7_label_monotone assignFour rowsFour 3 50 [(1, 60), (2, 70), (0, 80)]
      hp).2.2.1⟩

/-- Lower companion of `Real.log_le_sub_one_of_pos`:
`1 - x⁻¹ ≤ log x` for positive `x`. -/
theorem log_ge_one_sub_inv (x : ℝ) (hx : 0 < x) : 1 - x⁻¹ ≤ Real.log x := by
  have h := Real.log_le_sub_one_of_pos (x := x⁻¹) (by positivity)
  rw [Real.log_inv] at h
  linarith

/-- Rational bounds on `log 1000`, via `1024 = 1000 * (253/250) *
(256/253)` and the decimal bounds on `log 2`. -/
theorem log_thousand_bounds :
    (6.9076 : ℝ) ≤ Real.log 1000 ∧ Real.log 1000 ≤ 6.908 := by
  have h2l : (0.6931471803 : ℝ) < Real.log 2 := Real.log_two_gt_d9
  have h2u : Real.log 2 < 0.6931471808 := Real.log_two_lt_d9
  have h1024 : Real.log 1024 = 10 * Real.log 2 := by
    rw [show (1024 : ℝ) = 2 ^ 10 by norm_num, Real.log_pow]
    norm_num
  have hmul : Real.log 1024 =
      Real.log 1000 + Real.log ((253 : ℝ) / 250) +
        Real.log ((256 : ℝ) / 253) := by
    rw [show (1024 : ℝ) = 1000 * ((253 : ℝ) / 250) * ((256 : ℝ) / 253) by
        norm_num,
      Real.log_mul (by norm_num) (by norm_num),
      Real.log_mul (by norm_num) (by norm_num)]
  have hau : Real.log ((253 : ℝ) / 250) ≤ 3 / 250 := by
    have h := Real.log_le_sub_one_of_pos (x := (253 : ℝ) / 250) (by norm_num)
    linarith
  have hal : (3 : ℝ) / 253 ≤ Real.log ((253 : ℝ) / 250) := by
    have h := log_ge_one_sub_inv ((253 : ℝ) / 250) (by norm_num)
    rw [show ((253 : ℝ) / 250)⁻¹ = 250 / 253 by norm_num] at h
    linarith
  have hbu : Real.log ((256 : ℝ) / 253) ≤ 3 / 253 := by
    have h := Real.log_le_sub_one_of_pos (x := (256 : ℝ) / 253) (by norm_num)
    linarith
  have hbl : (3 : ℝ) / 256 ≤ Real.log ((256 : ℝ) / 253) := by
    have h := log_ge_one_sub_inv ((256 : ℝ) / 253) (by norm_num)
    rw [show ((256 : ℝ) / 253)⁻¹ = 253 / 256 by norm_num] at h
    linarith
  constructor <;> nlinarith

/-- Rational bounds on `log (11/10)`. -/
theorem log_eleven_tenths_bounds :
    (1 : ℝ) / 11 ≤ Real.log ((11 : ℝ) / 10) ∧
      Real.log ((11 : ℝ) / 10) ≤ 1 / 10 := by
  constructor
  · have h := log_ge_one_sub_inv ((11 : ℝ) / 10) (by norm_num)
    rw [show ((11 : ℝ) / 10)⁻¹ = 10 / 11 by norm_num] at h
    linarith
  · have h := Real.log_le_sub_one_of_pos (x := (11 : ℝ) / 10) (by norm_num)
    linarith

/-- The simulated delta at the sample input equals `2 * log (11/10)`. -/
theorem sample_delta_eq :
    (simulate_life_expectancy_change 1000 0 10 ⟨50, 2, 0.1⟩).2.2 =
      2 * Real.log ((11 : ℝ) / 10) := by
  have hdiv : Real.log ((11 : ℝ) / 10) = Real.log 1100 - Real.log 1000 := by
    rw [← Real.log_div (by norm_num) (by norm_num)]
    norm_num
  show predict ⟨50, 2, 0.1⟩ (Real.log (1000 * (1 + 10 / 100)))
        ((0 : ℤ) : ℝ) -
      predict ⟨50, 2, 0.1⟩ (Real.log 1000) ((0 : ℤ) : ℝ) = _
  rw [show (1000 : ℝ) * (1 + 10 / 100) = 1100 by norm_num, predict, predict,
    hdiv]
  push_cast
  ring

/-- C1, counterexample: at the sample input (`g = 1000`, `t = 0`,
`pct = 10`, coefficients `50, 2, 0.1`) the returned delta is
`2 * log 1.1 ≈ 0.1906`, which is not within `1e-3` of the claimed
`0.098`. -/
theorem c1_cex :
    ¬ |(simulate_life_expectancy_change 1000 0 10 ⟨50, 2, 0.1⟩).2.2 -
        0.098| ≤ 1e-3 := by
  intro habs
  have hup := (abs_le.mp habs).2
  rw [sample_delta_eq] at hup
  have hlow := log_eleven_tenths_bounds.1
  nlinarith

/-- C1 (amended): the simulator computes the perturbed level as
`g * (1 + pct/100)` and predicts baseline and perturbed outcome with the
model formula at the same time index, returning
`(baseline, perturbed, perturbed - baseline)`; at the sample input the
baseline is within `1e-3` of `63.816` as claimed, but the perturbed
outcome is `50 + 2 * log 1100 ≈ 64.006` and the delta is
`2 * log 1.1 ∈ [2/11, 1/5] ≈ 0.1906` — not `63.913` and `0.098`. -/
theorem c1_simulator_formula (a b c g : ℝ) (t : ℤ) (pct : ℝ)
    (_hg : 0 < g) :
    simulate_life_expectancy_change g t pct ⟨a, b, c⟩ =
        (a + b * Real.log g + c * (t : ℝ),
         a + b * Real.log (g * (1 + pct / 100)) + c * (t : ℝ),
         (a + b * Real.log (g * (1 + pct / 100)) + c * (t : ℝ)) -
           (a + b * Real.log g + c * (t : ℝ))) ∧
      |(simulate_life_expectancy_change 1000 0 10 ⟨50, 2, 0.1⟩).1 -
          63.816| ≤ 1e-3 ∧
      (simulate_life_expectancy_change 1000 0 10 ⟨50, 2, 0.1⟩).2.2 ∈
        Set.Icc ((2 : ℝ) / 11) (1 / 5) := by
  refine ⟨rfl, ?_, ?_⟩
  · have hb := log_thousand_bounds
    have hbase : (simulate_life_expectancy_change 1000 0 10
        ⟨50, 2, 0.1⟩).1 = 50 + 2 * Real.log 1000 := by
      show predict ⟨50, 2, 0.1⟩ (Real.log 1000) ((0 : ℤ) : ℝ) = _
      rw [predict]
      push_cast
      ring
    rw [hbase, abs_le]
    constructor <;> nlinarith [hb.1, hb.2]
  · have hl := log_eleven_tenths_bounds
    rw [sample_delta_eq]
    exact ⟨by nlinarith [hl.1], by nlinarith [hl.2]⟩

/-- C1, witness for `c1_simulator_formula` at the sample input. -/
theorem c1_witness :
    (0 : ℝ) < 1000 ∧
      (simulate_life_expectancy_change 1000 0 10 ⟨50, 2, 0.1⟩).2.2 ∈
        Set.Icc ((2 : ℝ) / 11) (1 / 5) :=
  ⟨by norm_num, (c1_simulator_formula 50 2 0.1 1000 0 10 (by norm_num)).2.2⟩

/-- C2 (amended): the source simulator performs no domain validation:
with `delta_gdp_pct = -100` the perturbed level is `0` and the code
still returns a triple (numpy computes `log 0 = -inf` silently) instead
of raising `DomainError`; the validating simulator the specification
describes errors at `-100` and succeeds at `-99.9999`. -/
theorem c2_boundary_behaviour (g : ℝ) (t : ℤ) (m : FittedModel)
    (hg : 0 < g) :
    simulate_spec g t (-100) m = .error .domainError ∧
      (∃ tr, simulate_spec g t (-99.9999) m = .ok tr) ∧
      simulate_life_expectancy_change g t (-100) m =
        (predict m (Real.log g) (t : ℝ), predict m (Real.log 0) (t : ℝ),
         predict m (Real.log 0) (t : ℝ) -
           predict m (Real.log g) (t : ℝ)) := by
  have hzero : g * (1 + (-100) / 100) = 0 := by
    norm_num
  refine ⟨?_, ?_, ?_⟩
  · rw [simulate_spec, if_pos hzero.le]
  · have hpos : ¬ g * (1 + (-99.9999) / 100) ≤ 0 := by
      push_neg
      rw [show (1 : ℝ) + (-99.9999) / 100 = 0.000001 by norm_num]
      positivity
    exact ⟨_, by rw [simulate_spec, if_neg hpos]⟩
  · show (predict m (Real.log g) ((t : ℤ) : ℝ),
        predict m (Real.log (g * (1 + (-100) / 100))) ((t : ℤ) : ℝ),
        predict m (Real.log (g * (1 + (-100) / 100))) ((t : ℤ) : ℝ) -
          predict m (Real.log g) ((t : ℤ) : ℝ)) = _
    rw [hzero]

/-- C2, counterexample: at `g = 1000`, `t = 0`, `pct = -100` the source
simulator returns a triple (it computes `log 0`), while the validating
simulator of the specification raises `DomainError`: the source does not
raise. -/
theorem c2_cex :
    simulate_spec 1000 0 (-100) ⟨50, 2, 0.1⟩ = .error .domainError ∧
      simulate_life_expectancy_change 1000 0 (-100) ⟨50, 2, 0.1⟩ =
        (predict ⟨50, 2, 0.1⟩ (Real.log 1000) ((0 : ℤ) : ℝ),
         predict ⟨50, 2, 0.1⟩ (Real.log 0) ((0 : ℤ) : ℝ),
         predict ⟨50, 2, 0.1⟩ (Real.log 0) ((0 : ℤ) : ℝ) -
           predict ⟨50, 2, 0.1⟩ (Real.log 1000) ((0 : ℤ) : ℝ)) := by
  have hzero : (1000 : ℝ) * (1 + (-100) / 100) = 0 := by norm_num
  constructor
  · rw [simulate_spec, if_pos hzero.le]
  · show (predict ⟨50, 2, 0.1⟩ (Real.log 1000) ((0 : ℤ) : ℝ),
        predict ⟨50, 2, 0.1⟩ (Real.log ((1000 : ℝ) * (1 + (-100) / 100)))
          ((0 : ℤ) : ℝ),
        predict ⟨50, 2, 0.1⟩ (Real.log ((1000 : ℝ) * (1 + (-100) / 100)))
          ((0 : ℤ) : ℝ) -
          predict ⟨50, 2, 0.1⟩ (Real.log 1000) ((0 : ℤ) : ℝ)) = _
    rw [hzero]

/-- C2, witness for `c2_boundary_behaviour` at a concrete input. -/
theorem c2_witness :
    (0 : ℝ) < 1000 ∧
      simulate_spec 1000 0 (-100) ⟨1, 1, 1⟩ = .error .domainError :=
  ⟨by norm_num, (c2_boundary_behaviour 1000 0 ⟨1, 1, 1⟩ (by norm_num)).1⟩

end PopHealth
